import Mathlib

/-!
Verification of the entry-list / paginated-range editor core of the
soulstruct-gui repository against its natural-language specification.

The Lean definitions below are shallow embeddings of the Python source:

* `QEntryRowListState`, `populate_entries`, `go_to_next_range`,
  `go_to_previous_range`, `previous_button_valid`, `next_button_valid`
  embed `soulstruct_gui/base/qt_editors/base/entry_list.py`
  (`QEntryRowList`); the hidden `QSpinBox` `first_row_index` is embedded
  as a natural number (its value is only ever set to non-negative
  page-aligned offsets by this code), and the row widgets updated/hidden
  by `populate_entries` are embedded as the list `visible_rows` of the
  `(entry_id, entry_text)` pairs currently shown.

* `BaseEditorState`, `on_category_selected`, `get_selected_category_entries`,
  `update_entry_text` embed `soulstruct_gui/base/qt_editors/base/editor.py`
  (`BaseEditor`); Python `dict` values are embedded as association lists in
  insertion order, and Python `list` index assignment is embedded with its
  exact index semantics (negative wrap-around, `IndexError` out of range).

* `QEntryRowState`, `QEntryRow.update_entry`, `QEntryRow.finish_name_edit`
  embed `soulstruct_gui/base/qt_editors/base/entry_row.py` (`QEntryRow`);
  Qt label/line-edit widgets are embedded by their text contents and a
  visibility flag, and emitted signals by an explicit return value.

* The `AIEditor` and `ParamsEditor` sections embed
  `soulstruct_gui/base/editors/ai.py` and
  `soulstruct_gui/base/editors/params.py`.  The tkinter base class
  `soulstruct_gui/base/editors/base_editor.py` is imported by both but is
  not part of the source tree; the few pieces of it (and of the external
  `soulstruct` data library) that these methods call are modelled from the
  specification and are marked `Modelled from the spec:` in their doc
  comments.

Python exceptions are embedded as `Except` errors; raising before any
mutation corresponds to returning an error without a new state.
-/

/-- Python exception kinds raised by the embedded code. -/
inductive PyErr where
  | keyError
  | indexError
  | valueError
deriving DecidableEq, Repr

/-- User-visible feedback effects produced by the embedded code
(`self.bell()`, `self.CustomDialog(...)`), which are presentation effects,
not exceptions. -/
inductive Feedback where
  | nothing
  | bell
  | dialog
deriving DecidableEq, Repr

/-! ## `QEntryRowList` (entry_list.py): paginated range over entries -/

/-- `QEntryRowList.ENTRY_RANGE_SIZE` class variable (page size). -/
def ENTRY_RANGE_SIZE : Nat := 10

/-- State of a `QEntryRowList` widget: the hidden `first_row_index` spin box,
the cached `entry_count`, and the entry data currently shown by the reusable
row widgets (rows past the populated range are hidden). -/
structure QEntryRowListState where
  first_row_index : Nat
  entry_count : Nat
  visible_rows : List (Int × String)
deriving DecidableEq, Repr

/-- `QEntryRowList.populate_entries`: caches `len(entries)` as
`entry_count`, then shows the slice
`entries[row_range_start : row_range_start + ENTRY_RANGE_SIZE]` in the row
widgets and hides the rest.  `range_size` is the `ENTRY_RANGE_SIZE` class
variable, kept as a parameter because subclasses may override it. -/
def populate_entries (range_size : Nat) (s : QEntryRowListState)
    (entries : List (Int × String)) : QEntryRowListState :=
  { s with
    entry_count := entries.length
    visible_rows := (entries.drop s.first_row_index).take range_size }

/-- `QEntryRowList.go_to_next_range`: returns (no-op) when
`current_row_range_start + ENTRY_RANGE_SIZE >= len(entries)`; otherwise
advances `first_row_index` by `ENTRY_RANGE_SIZE` and repopulates. -/
def go_to_next_range (range_size : Nat) (s : QEntryRowListState)
    (entries : List (Int × String)) : QEntryRowListState :=
  if s.first_row_index + range_size ≥ entries.length then s
  else
    populate_entries range_size
      { s with first_row_index := s.first_row_index + range_size } entries

/-- `QEntryRowList.go_to_previous_range`: returns (no-op) when
`current_row_range_start == 0`; otherwise decreases `first_row_index` by
`ENTRY_RANGE_SIZE` floored at 0 (`max(new_row_range_start, 0)`, which is
truncated subtraction on naturals) and repopulates. -/
def go_to_previous_range (range_size : Nat) (s : QEntryRowListState)
    (entries : List (Int × String)) : QEntryRowListState :=
  if s.first_row_index = 0 then s
  else
    populate_entries range_size
      { s with first_row_index := s.first_row_index - range_size } entries

/-- `QEntryRowList.previous_button_valid` property:
`self.first_row_index.value() > 0`. -/
def previous_button_valid (s : QEntryRowListState) : Bool :=
  decide (s.first_row_index > 0)

/-- `QEntryRowList.next_button_valid` property:
`self.first_row_index.value() < self.entry_count - self.ENTRY_RANGE_SIZE`,
with Python (signed) integer subtraction. -/
def next_button_valid (range_size : Nat) (s : QEntryRowListState) : Bool :=
  decide ((s.first_row_index : Int) < (s.entry_count : Int) - (range_size : Int))

/-- `k` consecutive calls of `go_to_next_range` on the same entry list. -/
def go_next_iter (range_size : Nat) (entries : List (Int × String)) :
    Nat → QEntryRowListState → QEntryRowListState
  | 0, s => s
  | k + 1, s => go_to_next_range range_size (go_next_iter range_size entries k s) entries

theorem populate_entries_first_row_index (range_size : Nat) (s : QEntryRowListState)
    (entries : List (Int × String)) :
    (populate_entries range_size s entries).first_row_index = s.first_row_index := rfl

theorem go_to_next_range_of_terminal (range_size : Nat) (s : QEntryRowListState)
    (entries : List (Int × String)) (h : entries.length ≤ s.first_row_index + range_size) :
    go_to_next_range range_size s entries = s := by
  unfold go_to_next_range
  simp [h]

theorem go_to_next_range_first_row_index (range_size : Nat) (s : QEntryRowListState)
    (entries : List (Int × String)) :
    (go_to_next_range range_size s entries).first_row_index =
      if entries.length ≤ s.first_row_index + range_size then s.first_row_index
      else s.first_row_index + range_size := by
  unfold go_to_next_range
  split <;> simp_all [populate_entries_first_row_index]

theorem go_next_iter_add (range_size : Nat) (entries : List (Int × String))
    (s : QEntryRowListState) (k j : Nat) :
    go_next_iter range_size entries (k + j) s
      = go_next_iter range_size entries j (go_next_iter range_size entries k s) := by
  induction j with
  | zero => rfl
  | succ j ih => simp [go_next_iter, ih]

theorem go_next_iter_offset_cases (range_size : Nat) (entries : List (Int × String))
    (s : QEntryRowListState) (h0 : s.first_row_index = 0) (k : Nat) :
    entries.length ≤ (go_next_iter range_size entries k s).first_row_index + range_size
    ∨ (go_next_iter range_size entries k s).first_row_index = range_size * k := by
  induction k with
  | zero => right; simpa [go_next_iter]
  | succ k ih =>
    rcases ih with h | h
    · left
      rw [go_next_iter, go_to_next_range_of_terminal range_size _ entries h]
      exact h
    · by_cases hterm : entries.length ≤ (go_next_iter range_size entries k s).first_row_index + range_size
      · left
        rw [go_next_iter, go_to_next_range_of_terminal range_size _ entries hterm]
        exact hterm
      · right
        rw [go_next_iter, go_to_next_range_first_row_index, if_neg hterm, h,
          Nat.mul_succ]

theorem go_next_iter_dvd (range_size : Nat) (entries : List (Int × String))
    (s : QEntryRowListState) (h0 : s.first_row_index = 0) (k : Nat) :
    range_size ∣ (go_next_iter range_size entries k s).first_row_index := by
  induction k with
  | zero => simp [go_next_iter, h0]
  | succ k ih =>
    rw [go_next_iter, go_to_next_range_first_row_index]
    split
    · exact ih
    · exact Nat.dvd_add ih (Nat.dvd_refl range_size)

theorem go_next_iter_terminal (range_size : Nat) (entries : List (Int × String))
    (s : QEntryRowListState) (hp : 0 < range_size) (h0 : s.first_row_index = 0) :
    entries.length ≤
      (go_next_iter range_size entries entries.length s).first_row_index + range_size := by
  rcases go_next_iter_offset_cases range_size entries s h0 entries.length with h | h
  · exact h
  · calc entries.length ≤ range_size * entries.length := Nat.le_mul_of_pos_left _ hp
    _ ≤ range_size * entries.length + range_size := Nat.le_add_right _ _
    _ = (go_next_iter range_size entries entries.length s).first_row_index + range_size := by
        rw [h]

theorem go_next_iter_stable (range_size : Nat) (entries : List (Int × String))
    (s : QEntryRowListState) (hp : 0 < range_size) (h0 : s.first_row_index = 0) (j : Nat) :
    go_next_iter range_size entries (entries.length + j) s
      = go_next_iter range_size entries entries.length s := by
  induction j with
  | zero => rfl
  | succ j ih =>
    have : entries.length + (j + 1) = (entries.length + j) + 1 := by omega
    rw [this, go_next_iter, ih,
      go_to_next_range_of_terminal range_size _ entries
        (go_next_iter_terminal range_size entries s hp h0)]

/-- C1: for every positive page size `p` and entry list, repeatedly calling
`go_to_next_range` from offset 0 (i) advances the offset by exactly `p`
while `offset + p < n`, (ii) reaches (after at most `n` calls) a terminal
offset `o` with `o + p ≥ n`, (iii) `o` is a multiple of `p`, (iv) `o = 0`
when `n ≤ p`, and (v) every further call is a no-op leaving the state
(hence the offset) unchanged. -/
theorem C1_go_next_terminal (p : Nat) (entries : List (Int × String))
    (s : QEntryRowListState) (hp : 0 < p) (h0 : s.first_row_index = 0) :
    (∀ k, (go_next_iter p entries k s).first_row_index + p < entries.length →
      (go_next_iter p entries (k + 1) s).first_row_index
        = (go_next_iter p entries k s).first_row_index + p)
    ∧ entries.length ≤ (go_next_iter p entries entries.length s).first_row_index + p
    ∧ p ∣ (go_next_iter p entries entries.length s).first_row_index
    ∧ (entries.length ≤ p → (go_next_iter p entries entries.length s).first_row_index = 0)
    ∧ ∀ m, entries.length ≤ m →
        go_next_iter p entries (m + 1) s = go_next_iter p entries m s := by
  refine ⟨?_, go_next_iter_terminal p entries s hp h0,
    go_next_iter_dvd p entries s h0 entries.length, ?_, ?_⟩
  · intro k hk
    rw [go_next_iter, go_to_next_range_first_row_index, if_neg (by omega)]
  · intro hnp
    rcases go_next_iter_offset_cases p entries s h0 entries.length with h | h
    · -- every state reachable from offset 0 with `n ≤ p` is still at offset 0:
      -- the guard `offset + p ≥ n` holds at 0, so the iteration never moves.
      have hz : ∀ k, (go_next_iter p entries k s).first_row_index = 0 := by
        intro k
        induction k with
        | zero => simpa [go_next_iter]
        | succ k ih =>
          rw [go_next_iter, go_to_next_range_first_row_index, if_pos (by omega)]
          exact ih
      exact hz entries.length
    · rcases Nat.eq_zero_or_pos entries.length with hn | hn
      · rw [h, hn, Nat.mul_zero]
      · -- `n ≤ p` and the offset is `p * n` only if the very first call moved,
        -- which the guard forbids; rule it out arithmetically.
        have h1 : (go_next_iter p entries 1 s).first_row_index = 0 := by
          rw [show (1 : Nat) = 0 + 1 from rfl, go_next_iter,
            go_to_next_range_first_row_index, if_pos (by simp [go_next_iter, h0]; omega)]
          simp [go_next_iter, h0]
        rcases Nat.exists_eq_add_of_le hn with ⟨m, hm⟩
        have := go_next_iter_offset_cases p entries s h0 entries.length
        -- offset stays 0 from step 1 onward since the guard holds at offset 0
        have hz : ∀ k, (go_next_iter p entries k s).first_row_index = 0 := by
          intro k
          induction k with
          | zero => simpa [go_next_iter]
          | succ k ih =>
            rw [go_next_iter, go_to_next_range_first_row_index, if_pos (by omega)]
            exact ih
        exact hz entries.length
  · intro m hm
    rcases Nat.exists_eq_add_of_le hm with ⟨j, rfl⟩
    rw [show entries.length + j + 1 = entries.length + (j + 1) from rfl,
      go_next_iter_stable p entries s hp h0 (j + 1),
      go_next_iter_stable p entries s hp h0 j]

/-- The 45-entry test category from `editor.py` (`TEST_DATA["Category Big"]`). -/
def cat_big : List (Int × String) :=
  (List.range 45).map fun i => ((i : Int), "Big Entry " ++ toString i)

theorem C1_go_next_terminal_witness :
    0 < 10 ∧
    ((∀ k, (go_next_iter 10 cat_big k ⟨0, 0, []⟩).first_row_index + 10 < cat_big.length →
      (go_next_iter 10 cat_big (k + 1) ⟨0, 0, []⟩).first_row_index
        = (go_next_iter 10 cat_big k ⟨0, 0, []⟩).first_row_index + 10)
    ∧ cat_big.length ≤ (go_next_iter 10 cat_big cat_big.length ⟨0, 0, []⟩).first_row_index + 10
    ∧ 10 ∣ (go_next_iter 10 cat_big cat_big.length ⟨0, 0, []⟩).first_row_index
    ∧ (cat_big.length ≤ 10 →
        (go_next_iter 10 cat_big cat_big.length ⟨0, 0, []⟩).first_row_index = 0)
    ∧ ∀ m, cat_big.length ≤ m →
        go_next_iter 10 cat_big (m + 1) ⟨0, 0, []⟩ = go_next_iter 10 cat_big m ⟨0, 0, []⟩) :=
  ⟨by decide, C1_go_next_terminal 10 cat_big ⟨0, 0, []⟩ (by decide) rfl⟩

/-! ## `BaseEditor` (editor.py): categories panel driving the entry list -/

/-- State of `BaseEditor`: the category data (a Python `dict` embedded as an
association list in insertion order), the selected category name, and the
owned `QEntryRowList`. -/
structure BaseEditorState where
  categories : List (String × List (Int × String))
  selected_category_name : String
  entry_list : QEntryRowListState
deriving DecidableEq, Repr

/-- `BaseEditor.get_selected_category_entries`:
`self.categories.get(self.selected_category_name, [])`. -/
def get_selected_category_entries (s : BaseEditorState) : List (Int × String) :=
  match s.categories.find? (fun c => c.1 == s.selected_category_name) with
  | some c => c.2
  | none => []

/-- `BaseEditor.on_category_selected`: stores the clicked item's text as
`selected_category_name`, then calls
`self.entry_list.populate_entries(self.get_selected_category_entries())`
(the button-state refresh only toggles widget enabled flags, which are the
derived predicates `previous_button_valid` / `next_button_valid`). -/
def on_category_selected (s : BaseEditorState) (item : String) : BaseEditorState :=
  let s1 := { s with selected_category_name := item }
  { s1 with
    entry_list := populate_entries ENTRY_RANGE_SIZE s1.entry_list
      (get_selected_category_entries s1) }

/-- `TEST_DATA` from `editor.py` (the `"Category Big"` list is `cat_big`). -/
def TEST_DATA : List (String × List (Int × String)) :=
  [("Category A", [(1, "Entry 1A"), (2, "Entry 2A"), (3, "Entry 3A")]),
   ("Category B", [(4, "Entry 1B"), (5, "Entry 2B"), (6, "Entry 3B")]),
   ("Category C", [(7, "Entry 1C"), (8, "Entry 2C"), (9, "Entry 3C")]),
   ("Category Big", cat_big)]

/-- A `BaseEditor` on `TEST_DATA` whose entry list has been paged through
`"Category Big"` up to offset 40 (four `go_to_next_range` clicks). -/
def c2_editor : BaseEditorState :=
  { categories := TEST_DATA
    selected_category_name := "Category Big"
    entry_list := go_next_iter 10 cat_big 4
      (populate_entries 10 ⟨0, 0, []⟩ cat_big) }

/-- C2 (code bug): selecting a new category does NOT reset the range offset.
Starting from `"Category Big"` paged to offset 40 and clicking
`"Category A"` (3 entries), the offset stays 40, so the slice
`entries[40:50]` is empty and no rows are shown even though the newly
selected category has 3 entries — the first page of the new category is not
displayed, contradicting the specified reset-to-0-before-first-page rule. -/
theorem C2_category_change_keeps_stale_offset :
    (c2_editor.entry_list.first_row_index = 40)
    ∧ (on_category_selected c2_editor "Category A").entry_list.first_row_index = 40
    ∧ (get_selected_category_entries (on_category_selected c2_editor "Category A")).length = 3
    ∧ (on_category_selected c2_editor "Category A").entry_list.visible_rows = [] := by
  refine ⟨rfl, rfl, rfl, rfl⟩

/-- C7 counterexample: a range-window state whose active category has zero
entries (after `populate_entries` with an empty list, `entry_count = 0` and
the page shown is empty) but whose stale offset is 40: here
`previous_button_valid` is `true`, so it is not the case that both
navigation predicates are false whenever the category has zero entries. -/
theorem C7_zero_entries_counterexample :
    (populate_entries 10 ⟨40, 45, []⟩ []).entry_count = 0
    ∧ (populate_entries 10 ⟨40, 45, []⟩ []).visible_rows = []
    ∧ previous_button_valid (populate_entries 10 ⟨40, 45, []⟩ []) = true := by
  refine ⟨rfl, rfl, rfl⟩

/-- C7 (amended): for every range-window state, `previous_button_valid` is
true exactly when `first_row_index > 0` and `next_button_valid` is true
exactly when `first_row_index + page_size < entry_count`; when the active
category has zero entries, `next_button_valid` is always false and the
populated page is the empty sequence (all rows hidden), while
`previous_button_valid` is false exactly when the offset is 0 (a stale
positive offset keeps it true, as the counterexample shows). -/
theorem C7_navigation_predicates (p : Nat) (s : QEntryRowListState) :
    (previous_button_valid s = true ↔ 0 < s.first_row_index)
    ∧ (next_button_valid p s = true ↔ s.first_row_index + p < s.entry_count)
    ∧ (s.entry_count = 0 → next_button_valid p s = false)
    ∧ (populate_entries p s []).entry_count = 0
    ∧ (populate_entries p s []).visible_rows = []
    ∧ (s.entry_count = 0 → (previous_button_valid s = false ↔ s.first_row_index = 0)) := by
  refine ⟨?_, ?_, ?_, rfl, by simp [populate_entries], ?_⟩
  · simp [previous_button_valid]
  · simp only [next_button_valid, decide_eq_true_eq]
    omega
  · intro h
    simp only [next_button_valid, h, decide_eq_false_iff_not]
    omega
  · intro _
    simp [previous_button_valid]

theorem C7_navigation_predicates_witness :
    ((previous_button_valid ⟨0, 0, []⟩ = true ↔ 0 < (0 : Nat))
    ∧ (next_button_valid 10 ⟨0, 0, []⟩ = true ↔ 0 + 10 < 0)
    ∧ ((0 : Nat) = 0 → next_button_valid 10 ⟨0, 0, []⟩ = false)
    ∧ (populate_entries 10 ⟨0, 0, []⟩ []).entry_count = 0
    ∧ (populate_entries 10 ⟨0, 0, []⟩ []).visible_rows = []
    ∧ ((0 : Nat) = 0 → (previous_button_valid ⟨0, 0, []⟩ = false ↔ (0 : Nat) = 0))) :=
  C7_navigation_predicates 10 ⟨0, 0, []⟩

/-! ## `QEntryRow` (entry_row.py): one editable row -/

/-- State of a `QEntryRow` widget: the identity members `entry_index` /
`entry_id`, the optional ID label / line-edit texts (absent when the widget
was not created), the name label and name line-edit texts, and whether the
name line edit is currently shown (inline edit in progress). -/
structure QEntryRowState where
  entry_index : Option Int
  entry_id : Option Int
  id_label : Option String
  id_line_edit : Option String
  name_label : String
  name_line_edit : String
  name_editing : Bool
deriving DecidableEq, Repr

/-- Python `str(...)` on an `int | None` value. -/
def py_str_opt : Option Int → String
  | none => "None"
  | some i => toString i

namespace QEntryRow

/-- `QEntryRow.__init__`: both identity members start as `None`; since
`self.entry_id is not None` is false at that point, the ID label is never
created (`id_label = None`, and `id_line_edit` is never assigned); the name
label starts as `"Entry Text"`, copied into the hidden line edit. -/
def init : QEntryRowState :=
  { entry_index := none
    entry_id := none
    id_label := none
    id_line_edit := none
    name_label := "Entry Text"
    name_line_edit := "Entry Text"
    name_editing := false }

/-- `QEntryRow.update_entry(*, entry_index, entry_id, entry_name)`: raises
`ValueError` when both identity arguments are `None`, when both are given,
or when `entry_name` is empty; then assigns `self.entry_index` only when it
is already non-`None`, else assigns `self.entry_id` (updating the ID label
and line-edit texts when the label widget exists) only when it is already
non-`None`; finally writes `entry_name` into the name label and line edit.
(`setText` on the ID widgets is embedded with `Option.map`: the source
calls it on the existing widgets.) -/
def update_entry (s : QEntryRowState) (entry_index entry_id : Option Int)
    (entry_name : String) : Except PyErr QEntryRowState :=
  if entry_index.isNone && entry_id.isNone then .error .valueError
  else if entry_index.isSome && entry_id.isSome then .error .valueError
  else if entry_name = "" then .error .valueError
  else
    let s1 :=
      if s.entry_index.isSome then { s with entry_index := entry_index }
      else if s.entry_id.isSome then
        { s with
          entry_id := entry_id
          id_label := s.id_label.map fun _ => py_str_opt entry_id
          id_line_edit := s.id_line_edit.map fun _ => py_str_opt entry_id }
      else s
    .ok { s1 with name_label := entry_name, name_line_edit := entry_name }

/-- `QEntryRow._start_name_edit`: hides the label, shows and focuses the
line edit. -/
def start_name_edit (s : QEntryRowState) : QEntryRowState :=
  { s with name_editing := true }

/-- `QEntryRow._finish_name_edit`: reads the line-edit text; if it differs
from the label text, writes it into the label and emits
`entry_text_changed(self.entry_index, self.entry_id, new_text)`; then hides
the line edit and shows the label.  The emitted signal (if any) is returned
alongside the new state. -/
def finish_name_edit (s : QEntryRowState) :
    QEntryRowState × Option (Option Int × Option Int × String) :=
  let new_text := s.name_line_edit
  if new_text ≠ s.name_label then
    ({ s with name_label := new_text, name_editing := false },
      some (s.entry_index, s.entry_id, new_text))
  else
    ({ s with name_editing := false }, none)

/-- `QEntryRow._cancel_name_edit`: restores the line-edit text from the
label and hides the line edit; no signal, no label mutation. -/
def cancel_name_edit (s : QEntryRowState) : QEntryRowState :=
  { s with name_line_edit := s.name_label, name_editing := false }

/-- A sequence of `update_entry` calls starting from a given row state; a
call that raises leaves the row object unchanged (all `ValueError` guards
precede any mutation in the source). -/
def run_updates (s : QEntryRowState)
    (calls : List (Option Int × Option Int × String)) : QEntryRowState :=
  calls.foldl
    (fun t c =>
      match update_entry t c.1 c.2.1 c.2.2 with
      | .ok t' => t'
      | .error _ => t)
    s

end QEntryRow

theorem update_entry_ok_of_none (s : QEntryRowState) (ei ed : Option Int)
    (nm : String) (s' : QEntryRowState) (h1 : s.entry_index = none)
    (h2 : s.entry_id = none) (h : QEntryRow.update_entry s ei ed nm = .ok s') :
    s'.entry_index = none ∧ s'.entry_id = none ∧ s'.name_label = nm
      ∧ s'.name_line_edit = nm := by
  unfold QEntryRow.update_entry at h
  split at h
  · exact absurd h (by simp)
  · split at h
    · exact absurd h (by simp)
    · split at h
      · exact absurd h (by simp)
      · simp only [h1, h2, Option.isSome_none, Bool.false_eq_true, if_false,
          Except.ok.injEq] at h
        subst h
        exact ⟨rfl, rfl, rfl, rfl⟩

theorem run_updates_identity_none (calls : List (Option Int × Option Int × String))
    (s : QEntryRowState) (h1 : s.entry_index = none) (h2 : s.entry_id = none) :
    (QEntryRow.run_updates s calls).entry_index = none
      ∧ (QEntryRow.run_updates s calls).entry_id = none := by
  induction calls generalizing s with
  | nil => exact ⟨h1, h2⟩
  | cons c rest ih =>
    unfold QEntryRow.run_updates
    simp only [List.foldl_cons]
    rcases hc : QEntryRow.update_entry s c.1 c.2.1 c.2.2 with e | s'
    · exact ih s h1 h2
    · obtain ⟨g1, g2, -, -⟩ := update_entry_ok_of_none s c.1 c.2.1 c.2.2 s' h1 h2 hc
      exact ih s' g1 g2

/-- C8: a `QEntryRow`'s identity fields never change after construction —
`entry_index` and `entry_id` are both `None` when the row is built, every
validated `update_entry` call from such a state leaves both fields equal to
their pre-call values (each is only assigned when already non-`None`) while
updating the displayed name, and after any sequence of `update_entry` calls
from the constructed state both fields are still `None`. -/
theorem C8_identity_fields_never_change
    (calls : List (Option Int × Option Int × String)) (s : QEntryRowState)
    (ei ed : Option Int) (nm : String) (s' : QEntryRowState)
    (h1 : s.entry_index = none) (h2 : s.entry_id = none)
    (h : QEntryRow.update_entry s ei ed nm = .ok s') :
    QEntryRow.init.entry_index = none ∧ QEntryRow.init.entry_id = none
    ∧ s'.entry_index = s.entry_index ∧ s'.entry_id = s.entry_id
    ∧ s'.name_label = nm
    ∧ (QEntryRow.run_updates QEntryRow.init calls).entry_index = none
    ∧ (QEntryRow.run_updates QEntryRow.init calls).entry_id = none := by
  obtain ⟨g1, g2, g3, -⟩ := update_entry_ok_of_none s ei ed nm s' h1 h2 h
  obtain ⟨r1, r2⟩ := run_updates_identity_none calls QEntryRow.init rfl rfl
  exact ⟨rfl, rfl, g1.trans h1.symm, g2.trans h2.symm, g3, r1, r2⟩

theorem C8_identity_fields_never_change_witness :
    QEntryRow.init.entry_index = none ∧ QEntryRow.init.entry_id = none
    ∧ (QEntryRow.init.entry_index = QEntryRow.init.entry_index)
    ∧ (QEntryRow.init.entry_id = QEntryRow.init.entry_id)
    ∧ "A".length = 1
    ∧ (QEntryRow.run_updates QEntryRow.init [(some 1, none, "A")]).entry_index = none
    ∧ (QEntryRow.run_updates QEntryRow.init [(some 1, none, "A")]).entry_id = none := by
  have h := C8_identity_fields_never_change [(some 1, none, "A")] QEntryRow.init
    (some 1) none "A"
    { QEntryRow.init with name_label := "A", name_line_edit := "A" }
    rfl rfl rfl
  exact ⟨h.1, h.2.1, rfl, rfl, rfl, h.2.2.2.2.2.1, h.2.2.2.2.2.2⟩

/-- A dict-backed row displaying entry 7 with name `"Foo"`, whose name line
edit is open and has been cleared to the empty string by the user. -/
def c4_row : QEntryRowState :=
  { entry_index := none
    entry_id := some 7
    id_label := some "7"
    id_line_edit := some "7"
    name_label := "Foo"
    name_line_edit := ""
    name_editing := true }

/-- C4 (code bug): committing a name edit whose pending value is empty is
not validated by `_finish_name_edit`: it overwrites the label with `""`,
emits `entry_text_changed(None, 7, "")`, and closes the inline edit — even
though the same class's `update_entry` rejects the empty name with
`ValueError` ("Entry name cannot be empty"), i.e. the commit produces a
state the row's own validation declares invalid, instead of failing and
leaving the session open and the entry unmutated. -/
theorem C4_empty_commit_not_validated :
    (QEntryRow.finish_name_edit c4_row).1.name_label = ""
    ∧ (QEntryRow.finish_name_edit c4_row).1.name_editing = false
    ∧ (QEntryRow.finish_name_edit c4_row).2 = some (none, some 7, "")
    ∧ QEntryRow.update_entry c4_row none (some 7) "" = .error .valueError := by
  refine ⟨rfl, rfl, rfl, rfl⟩

/-! ## `BaseEditor.update_entry_text` (editor.py): position-wise write -/

/-- Python list index assignment `l[i] = v`: indices `0 ≤ i < len(l)` write
position `i`, indices `-len(l) ≤ i < 0` wrap to `len(l) + i`, anything else
raises `IndexError`. -/
def py_list_setitem {α : Type} (l : List α) (i : Int) (v : α) :
    Except PyErr (List α) :=
  if 0 ≤ i ∧ i < l.length then .ok (l.set i.toNat v)
  else if -(l.length : Int) ≤ i ∧ i < 0 then .ok (l.set (i + l.length).toNat v)
  else .error .indexError

/-- Replaces the stored entry list of the selected category: the list
returned by `get_selected_category_entries` is the very object held in
`self.categories`, so Python's in-place `[...] = ...` mutates it there. -/
def set_selected_category_entries (s : BaseEditorState)
    (l : List (Int × String)) : BaseEditorState :=
  { s with
    categories := s.categories.map fun c =>
      if c.1 == s.selected_category_name then (c.1, l) else c }

/-- `BaseEditor.update_entry_text(entry_id, new_text)`:
`self.get_selected_category_entries()[entry_id] = (entry_id, new_text)` —
a Python list index assignment at index `entry_id`. -/
def update_entry_text (s : BaseEditorState) (entry_id : Int)
    (new_text : String) : Except PyErr BaseEditorState :=
  match py_list_setitem (get_selected_category_entries s) entry_id
      (entry_id, new_text) with
  | .error e => .error e
  | .ok l => .ok (set_selected_category_entries s l)

/-- C10: `update_entry_text` writes position-wise, not key-wise — for a
non-negative `entry_id` it replaces the element at list index `entry_id` of
the selected category's list with `(entry_id, new_text)`; it fails with
`IndexError` whenever `entry_id ≥ len(L)`; every other position is left
unchanged, so in particular an entry whose `id` field equals `entry_id` but
sits at a different list position is never the one updated. -/
theorem C10_update_entry_text_positionwise (s : BaseEditorState)
    (entry_id : Int) (new_text : String) (hpos : 0 ≤ entry_id) :
    (entry_id < (get_selected_category_entries s).length →
      update_entry_text s entry_id new_text
        = .ok (set_selected_category_entries s
            ((get_selected_category_entries s).set entry_id.toNat
              (entry_id, new_text))))
    ∧ (((get_selected_category_entries s).length : Int) ≤ entry_id →
      update_entry_text s entry_id new_text = .error .indexError)
    ∧ (∀ j : Nat, (j : Int) ≠ entry_id →
      ((get_selected_category_entries s).set entry_id.toNat
          (entry_id, new_text)).get? j
        = (get_selected_category_entries s).get? j)
    ∧ (∀ j : Nat, ∀ pr : Int × String,
      (get_selected_category_entries s).get? j = some pr → pr.1 = entry_id →
      (j : Int) ≠ entry_id →
      ((get_selected_category_entries s).set entry_id.toNat
          (entry_id, new_text)).get? j = some pr) := by
  have hne : ∀ j : Nat, (j : Int) ≠ entry_id →
      ((get_selected_category_entries s).set entry_id.toNat
          (entry_id, new_text)).get? j
        = (get_selected_category_entries s).get? j := by
    intro j hj
    have : j ≠ entry_id.toNat := by omega
    simp [List.get?_eq_getElem?, List.getElem?_set_ne (Ne.symm this)]
  refine ⟨?_, ?_, hne, ?_⟩
  · intro h
    unfold update_entry_text py_list_setitem
    rw [if_pos ⟨hpos, h⟩]
  · intro h
    unfold update_entry_text py_list_setitem
    rw [if_neg (by omega), if_neg (by omega)]
  · intro j pr hj hid hne'
    rw [hne j hne']
    exact hj

/-- A `BaseEditor` on `TEST_DATA` with `"Category A"` selected. -/
def c10_editor : BaseEditorState :=
  { categories := TEST_DATA
    selected_category_name := "Category A"
    entry_list := ⟨0, 0, []⟩ }

theorem C10_update_entry_text_positionwise_witness :
    0 ≤ (1 : Int) ∧
    (((1 : Int) < (get_selected_category_entries c10_editor).length →
      update_entry_text c10_editor 1 "X"
        = .ok (set_selected_category_entries c10_editor
            ((get_selected_category_entries c10_editor).set (1 : Int).toNat (1, "X"))))
    ∧ (((get_selected_category_entries c10_editor).length : Int) ≤ 1 →
      update_entry_text c10_editor 1 "X" = .error .indexError)
    ∧ (∀ j : Nat, (j : Int) ≠ 1 →
      ((get_selected_category_entries c10_editor).set (1 : Int).toNat (1, "X")).get? j
        = (get_selected_category_entries c10_editor).get? j)
    ∧ (∀ j : Nat, ∀ pr : Int × String,
      (get_selected_category_entries c10_editor).get? j = some pr → pr.1 = 1 →
      (j : Int) ≠ 1 →
      ((get_selected_category_entries c10_editor).set (1 : Int).toNat (1, "X")).get? j
        = some pr)) :=
  ⟨by decide, C10_update_entry_text_positionwise c10_editor 1 "X" (by decide)⟩

/-! ## `AIEditor` (editors/ai.py): goal list with inline ID/text editing -/

/-- A Lua goal script record as used by `AIEditor`: its `(goal_id,
goal_type)` pair is the dict key of `get_category_data()` (type
`Dict[(int, bool), LuaGoalScript]`), and `goal_name` its display text. -/
structure LuaGoalScript where
  goal_id : Int
  goal_type : Bool
  goal_name : String
deriving DecidableEq, Repr

/-- Result of `AIEditor._start_entry_text_edit`: a new inline edit was
opened, a multi-line name was routed to the pop-out editor, or the call
fell through because an edit was already open (the guard failed and the
method did nothing). -/
inductive StartEditResult where
  | opened
  | popout
  | ignored
deriving DecidableEq, Repr

/-- State of an `AIEditor` for the selected map: the `LuaBND` goal list,
the active row selection, the `(goal_id, goal_type)` keys displayed per
row, and the two inline-edit widget references `_e_entry_text_edit` /
`_e_entry_id_edit` (`None` when no such edit is open; an open text edit
holds its row and initial text). -/
structure AIEditorState where
  goals : List LuaGoalScript
  active_row_index : Option Nat
  entry_rows : List (Int × Bool)
  e_entry_text_edit : Option (Nat × String)
  e_entry_id_edit : Option (Nat × String)
deriving DecidableEq, Repr

namespace AIEditor

/-- The `(goal_id, goal_type)` key of a goal. -/
def goal_key (g : LuaGoalScript) : Int × Bool := (g.goal_id, g.goal_type)

/-- Keys of `AIEditor.get_category_data()` =
`get_selected_bnd().get_goal_dict()`: one `(goal_id, goal_type)` key per
goal, in goal-list order. -/
def get_goal_dict_keys (goals : List LuaGoalScript) : List (Int × Bool) :=
  goals.map goal_key

/-- Modelled from the spec: `LuaBND.get_goal(goal_id, goal_type)` of the
external `soulstruct` library ("a way to look up an entry by key") — finds
the goal with the given key, raising if absent. -/
def luabnd_get_goal (goals : List LuaGoalScript) (gid : Int) (gt : Bool) :
    Except PyErr LuaGoalScript :=
  match goals.find? (fun g => g.goal_id == gid && g.goal_type == gt) with
  | some g => .ok g
  | none => .error .keyError

/-- In-place `goal.goal_id = new_id` on the object `get_goal` returned
(the first goal with the given key): rebuild the list with that one
element's `goal_id` replaced. -/
def set_first_goal_id (goals : List LuaGoalScript) (gid : Int) (gt : Bool)
    (new_id : Int) : List LuaGoalScript :=
  match goals with
  | [] => []
  | g :: rest =>
    if g.goal_id == gid && g.goal_type == gt then
      { g with goal_id := new_id } :: rest
    else g :: set_first_goal_id rest gid gt new_id

/-- In-place `goal.goal_name = text` on the object `get_goal` returned
(used by `_set_entry_text`; the external name setter's Lua validation is a
black box and is modelled from the spec as a plain mutable-string write). -/
def set_first_goal_name (goals : List LuaGoalScript) (gid : Int) (gt : Bool)
    (text : String) : List LuaGoalScript :=
  match goals with
  | [] => []
  | g :: rest =>
    if g.goal_id == gid && g.goal_type == gt then
      { g with goal_name := text } :: rest
    else g :: set_first_goal_name rest gid gt text

/-- `AIEditor.get_goal(row_index)`: reads the displayed
`(entry_id, goal_type)` of row `row_index` and looks the goal up in the
selected `LuaBND`. -/
def get_goal (s : AIEditorState) (row_index : Nat) :
    Except PyErr LuaGoalScript :=
  match s.entry_rows.get? row_index with
  | none => .error .indexError
  | some (gid, gt) => luabnd_get_goal s.goals gid gt

/-- Modelled from the spec: `base_editor._cancel_entry_id_edit` /
`_cancel_entry_text_edit` (the tkinter base class is not in the tree)
destroy any open inline-edit widget and clear its reference; per the spec,
`cancel()` "discards `pending_value`, no store mutation". -/
def cancel_entry_edits (s : AIEditorState) : AIEditorState :=
  { s with e_entry_id_edit := none, e_entry_text_edit := none }

/-- `AIEditor.change_entry_id(row_index, new_id)`: returns `False` when the
row's goal already has `new_id`; shows the "Entry ID Clash" dialog and
returns `False` when `(new_id, goal.goal_type)` is already a goal-dict key;
otherwise writes `goal.goal_id = new_id` in place, updates the displayed
row, and returns `True`. -/
def change_entry_id (s : AIEditorState) (row_index : Nat) (new_id : Int) :
    Except PyErr (AIEditorState × Bool × Feedback) :=
  match get_goal s row_index with
  | .error e => .error e
  | .ok goal =>
    if goal.goal_id == new_id then .ok (s, false, .nothing)
    else if (get_goal_dict_keys s.goals).contains (new_id, goal.goal_type) then
      .ok (s, false, .dialog)
    else
      let s1 := { s with
        goals := set_first_goal_id s.goals goal.goal_id goal.goal_type new_id
        entry_rows := s.entry_rows.set row_index (new_id, goal.goal_type) }
      .ok (s1, true, .nothing)

/-- `AIEditor.change_entry_id` applied twice on the same row — first
renaming to `new_id`, then back to `old_id` — with Python's sequential
exception propagation. -/
def rename_chain (s : AIEditorState) (r : Nat) (new_id old_id : Int) :
    Except PyErr AIEditorState :=
  match change_entry_id s r new_id with
  | .error e => .error e
  | .ok (s1, _, _) =>
    match change_entry_id s1 r old_id with
    | .error e => .error e
    | .ok (s2, _, _) => .ok s2

/-- `AIEditor._start_entry_text_edit(row_index)`: only acts when neither
`_e_entry_text_edit` nor `_e_entry_id_edit` is open; then a multi-line goal
name is routed to the pop-out editor, otherwise an inline `Entry` widget is
created with the goal's current name.  When an edit is already open, the
guard fails and the method does nothing at all (no error, no feedback). -/
def start_entry_text_edit (s : AIEditorState) (row_index : Nat) :
    Except PyErr (AIEditorState × StartEditResult) :=
  if s.e_entry_text_edit.isNone && s.e_entry_id_edit.isNone then
    match get_goal s row_index with
    | .error e => .error e
    | .ok goal =>
      if goal.goal_name.contains '\n' then .ok (s, .popout)
      else
        .ok ({ s with e_entry_text_edit := some (row_index, goal.goal_name) },
          .opened)
  else .ok (s, .ignored)

/-- Python `list.insert(i, v)`: indices past the end append (`at_index`
here is always a non-negative goal index). -/
def py_list_insert {α : Type} (l : List α) (i : Nat) (v : α) : List α :=
  if l.length ≤ i then l ++ [v] else l.insertIdx i v

/-- Modelled from the spec: `base_editor._start_entry_id_edit` (the
tkinter base class is not in the tree; `ai.py` only routes to this method
from `select_entry_row_index` when the ID was clicked).  Per the spec's
`begin_edit(target, field=key)` it opens the inline ID edit on the row,
subject to the same single-open-session guard the in-src text-edit opener
uses, with the goal's current ID as the original value. -/
def start_entry_id_edit (s : AIEditorState) (row_index : Nat) :
    Except PyErr AIEditorState :=
  if s.e_entry_text_edit.isNone && s.e_entry_id_edit.isNone then
    match get_goal s row_index with
    | .error e => .error e
    | .ok goal =>
      .ok { s with e_entry_id_edit := some (row_index, toString goal.goal_id) }
  else .ok s

set_option linter.unusedVariables false in
/-- `AIEditor.select_entry_row_index(row_index, set_focus_to_text,
edit_if_already_selected, id_clicked, check_unsaved)` (ai.py:897-947).
`ignored_unsaved` is the outcome of `self._ignored_unsaved()` (ai.py:539),
which compares the untracked script-editor widget text with the goal's
script and may ask the user via a dialog: `true` means no unsaved changes
or the user agreed to lose them; `false` aborts the selection with no
state change.  With old and new rows both non-`None`: re-selecting the
same row routes to the inline ID/text-edit opener (when
`edit_if_already_selected`) or returns, and switching rows does NOT cancel
open inline edits — the cancellation `else` branch runs only when the old
or the new row is `None`.  The widget/button updates and
`update_script_text` are presentation-only, but the latter's `get_goal`
lookup of the newly selected row (which can raise) is kept. -/
def select_entry_row_index (s : AIEditorState) (row_index : Option Nat)
    (set_focus_to_text edit_if_already_selected id_clicked check_unsaved : Bool)
    (ignored_unsaved : Bool) : Except PyErr AIEditorState :=
  if check_unsaved && decide (s.active_row_index ≠ row_index)
      && decide (s.active_row_index ≠ none) && !ignored_unsaved then
    .ok s
  else
    match s.active_row_index, row_index with
    | some old_row, some new_row =>
      if new_row = old_row then
        if edit_if_already_selected then
          if id_clicked then start_entry_id_edit s new_row
          else
            match start_entry_text_edit s new_row with
            | .error e => .error e
            | .ok (s1, _) => .ok s1
        else .ok s
      else
        match get_goal s new_row with
        | .error e => .error e
        | .ok _ => .ok { s with active_row_index := some new_row }
    | _, _ =>
      let s1 := cancel_entry_edits s
      match row_index with
      | some new_row =>
        match get_goal s1 new_row with
        | .error e => .error e
        | .ok _ => .ok { s1 with active_row_index := some new_row }
      | none => .ok { s1 with active_row_index := none }

/-- `AIEditor.refresh_entries` (ai.py:857-886): cancels any inline edits,
redisplays the rows from `_get_category_name_range` — which for this
editor ignores its index arguments and returns the full goal-dict key list
(ai.py:1033-1035) — looking each key's goal up in the `LuaBND` and writing
it into its row widget (every lookup succeeds because the keys come from
that same dict; the rows shown are exactly the key list, remaining widgets
hidden), then applies the active-row adjustment: an active index equal to
the number of displayed rows is re-selected one row back, a larger one is
deselected.  `displayed_entry_count`, the grid styling, and the
range-button refresh are presentation-only.  `ignored_unsaved` is the
`_ignored_unsaved()` outcome consulted by the re-selection (which uses the
default `check_unsaved=True`). -/
def refresh_entries (ignored_unsaved : Bool) (s : AIEditorState) :
    Except PyErr AIEditorState :=
  let s1 := cancel_entry_edits s
  let entries_to_display := get_goal_dict_keys s1.goals
  let row := entries_to_display.length
  let s2 := { s1 with entry_rows := entries_to_display }
  match s2.active_row_index with
  | none => .ok s2
  | some a =>
    if 0 < row ∧ row = a then
      select_entry_row_index s2 (some (row - 1)) true true false true
        ignored_unsaved
    else if row < a then
      select_entry_row_index s2 none true true false true ignored_unsaved
    else .ok s2

/-- `AIEditor.get_entry_index(entry_id, goal_type)` (ai.py:1040-1047):
raises `ValueError` when `(entry_id, goal_type)` is absent from the goal
dict, else looks the goal up and returns `goals.index(goal)` — the
position of the first goal with that key.  (The `goal_type is None` guard
cannot fire here: the embedded type is always a concrete `Bool`.) -/
def get_entry_index (s : AIEditorState) (entry_id : Int) (goal_type : Bool) :
    Except PyErr Nat :=
  match s.goals.findIdx? (fun g => g.goal_id == entry_id && g.goal_type == goal_type) with
  | some i => .ok i
  | none => .error .valueError

/-- `AIEditor.select_entry_id(entry_id, goal_type, set_focus_to_text,
edit_if_already_selected)` (ai.py:888-894): resolves the entry's goal-list
index (raising `ValueError` when the key is absent), refreshes the
displayed rows, then selects that row index. -/
def select_entry_id (ignored_unsaved : Bool) (s : AIEditorState)
    (entry_id : Int) (goal_type : Bool)
    (set_focus_to_text edit_if_already_selected : Bool) :
    Except PyErr AIEditorState :=
  match get_entry_index s entry_id goal_type with
  | .error e => .error e
  | .ok entry_index =>
    match refresh_entries ignored_unsaved s with
    | .error e => .error e
    | .ok s1 =>
      select_entry_row_index s1 (some entry_index) set_focus_to_text
        edit_if_already_selected false true ignored_unsaved

/-- `AIEditor.delete_entry(row_index, category=None, must_be_selected=False)`:
bell-and-return when `row_index is None`; bell-and-return when
`must_be_selected and self.active_row_index is None or
row_index != self.active_row_index` (Python parses this as
`(must_be_selected and active is None) or (row_index != active)`);
otherwise cancels any inline edits, removes the row's goal from the goal
list, deselects via `select_entry_row_index(None, check_unsaved=False)`,
and refreshes the displayed rows.  `ignored_unsaved` threads the
`_ignored_unsaved()` dialog outcome to those two calls (neither consults
it on this path: the deselection passes `check_unsaved=False` and the
refresh runs with no active row). -/
def delete_entry (s : AIEditorState) (row_index : Option Nat)
    (must_be_selected : Bool) (ignored_unsaved : Bool) :
    Except PyErr (AIEditorState × Feedback) :=
  match row_index with
  | none => .ok (s, .bell)
  | some r =>
    if (must_be_selected && decide (s.active_row_index = none))
        || decide (some r ≠ s.active_row_index) then
      .ok (s, .bell)
    else
      let s1 := cancel_entry_edits s
      match get_goal s1 r with
      | .error e => .error e
      | .ok goal =>
        let s2 := { s1 with goals := s1.goals.erase goal }
        match select_entry_row_index s2 none true true false false
            ignored_unsaved with
        | .error e => .error e
        | .ok s3 =>
          match refresh_entries ignored_unsaved s3 with
          | .error e => .error e
          | .ok s4 => .ok (s4, .nothing)

/-- `AIEditor._set_entry_text(entry_id, text, goal_type)` (ai.py:1052-1061)
as called by `_add_entry` (`update_row_index=None`; the optional displayed
row's name refresh is presentation-only): looks the goal up, then assigns
`goal.goal_name = text`.  The external soulstruct `goal_name` setter may
raise `LuaError` (black-box name validation), embedded as the explicit
validator `lua_name_ok`; a rejected name shows the "Goal Name Error"
dialog and returns `False` with the goal unmutated. -/
def set_entry_text (lua_name_ok : String → Bool) (s : AIEditorState)
    (entry_id : Int) (text : String) (goal_type : Bool) :
    Except PyErr (AIEditorState × Bool × Feedback) :=
  match luabnd_get_goal s.goals entry_id goal_type with
  | .error e => .error e
  | .ok _ =>
    if lua_name_ok text then
      .ok ({ s with goals := set_first_goal_name s.goals entry_id goal_type text },
        true, .nothing)
    else .ok (s, false, .dialog)

/-- `AIEditor._add_entry(entry_id, text, goal_type, at_index, new_goal)`:
dialog-and-`False` when `entry_id < 0` or when `(entry_id, goal_type)` is
already a goal-dict key; otherwise stamps the key onto `new_goal`, cancels
any inline edits, inserts it at `at_index` (Python truthiness: `None` and
`0` both append), writes `text` as its name via `_set_entry_text` (whose
`False` result the source ignores, though its dialog is still shown), and
jumps the selection to the new entry via `select_entry_id` (the method
returns `None` on this path). -/
def add_entry (lua_name_ok : String → Bool) (ignored_unsaved : Bool)
    (s : AIEditorState) (entry_id : Int) (text : String) (goal_type : Bool)
    (at_index : Option Nat) (new_goal : LuaGoalScript) :
    Except PyErr (AIEditorState × Option Bool × Feedback) :=
  if decide (entry_id < 0) then .ok (s, some false, .dialog)
  else if (get_goal_dict_keys s.goals).contains (entry_id, goal_type) then
    .ok (s, some false, .dialog)
  else
    let g1 := { new_goal with goal_id := entry_id, goal_type := goal_type }
    let s1 := cancel_entry_edits s
    let goals1 :=
      match at_index with
      | some i => if i ≠ 0 then py_list_insert s1.goals i g1 else s1.goals ++ [g1]
      | none => s1.goals ++ [g1]
    let s2 := { s1 with goals := goals1 }
    match set_entry_text lua_name_ok s2 entry_id text goal_type with
    | .error e => .error e
    | .ok (s3, _, fb) =>
      match select_entry_id ignored_unsaved s3 entry_id goal_type true false with
      | .error e => .error e
      | .ok s4 => .ok (s4, none, fb)

end AIEditor

/-! ## `ParamsEditor` (editors/params.py): dict-backed key rename -/

/-- Typed store errors of the specification's error hierarchy. -/
inductive EditorErr where
  | duplicateKeyError
  | notFoundError
deriving DecidableEq, Repr

/-- Python `dict.pop(k)` on an insertion-ordered association list: removes
and returns the value of the (unique) matching key, raising `KeyError` when
absent. -/
def dict_pop {α : Type} (rows : List (Int × α)) (k : Int) :
    Except PyErr (α × List (Int × α)) :=
  match rows with
  | [] => .error .keyError
  | (k', v) :: rest =>
    if k' == k then .ok (v, rest)
    else
      match dict_pop rest k with
      | .error e => .error e
      | .ok (v0, rest0) => .ok (v0, (k', v) :: rest0)

/-- Python `d[k] = v` on an insertion-ordered association list: replaces
the value in place when the key exists, otherwise appends at the end. -/
def dict_set {α : Type} (rows : List (Int × α)) (k : Int) (v : α) :
    List (Int × α) :=
  match rows with
  | [] => [(k, v)]
  | (k', v') :: rest =>
    if k' == k then (k, v) :: rest else (k', v') :: dict_set rest k v

/-- Python `d.get(k)` (key lookup) on an association list. -/
def dict_get {α : Type} (rows : List (Int × α)) (k : Int) : Option α :=
  (rows.find? (fun c => c.1 == k)).map (·.2)

/-- The canonical display order of a dict-backed store is its sorted key
sequence (`get_entry_index` uses `sorted(self.params.get_param(category).rows)`). -/
def sorted_keys {α : Type} (rows : List (Int × α)) : List Int :=
  (rows.map Prod.fst).mergeSort

namespace ParamsEditor

/-- `ParamsEditor._set_entry_id(entry_id, new_id)` acting on the param's
`rows` dict: `entry_data = rows.pop(entry_id); rows[new_id] = entry_data`
(the optional displayed-row refresh is presentation only). -/
def set_entry_id {α : Type} (rows : List (Int × α)) (entry_id new_id : Int) :
    Except PyErr (List (Int × α)) :=
  match dict_pop rows entry_id with
  | .error e => .error e
  | .ok (entry_data, rows1) => .ok (dict_set rows1 new_id entry_data)

/-- Modelled from the spec: the rename entry point
`base_editor.change_entry_id` (the tkinter base class is not in the tree)
applies the spec's `rename_key` contract — "fails with `DuplicateKeyError`
if `new_key` already present" — before delegating the store mutation to the
in-src `ParamsEditor._set_entry_id`; a missing `old_key` is the spec's
`NotFoundError`. -/
def change_entry_id {α : Type} (rows : List (Int × α)) (old_key new_key : Int) :
    Except EditorErr (List (Int × α)) :=
  if (rows.map Prod.fst).contains new_key then .error .duplicateKeyError
  else
    match set_entry_id rows old_key new_key with
    | .error _ => .error .notFoundError
    | .ok rows1 => .ok rows1

/-- The store state after attempting a rename: a raised error leaves the
store unchanged (both guards fire before any mutation). -/
def rename_total {α : Type} (rows : List (Int × α)) (old_key new_key : Int) :
    List (Int × α) :=
  match change_entry_id rows old_key new_key with
  | .ok rows1 => rows1
  | .error _ => rows

end ParamsEditor

/-- An `AIEditor` with two goals whose row 0 has an inline text edit open. -/
def c3_editor : AIEditorState :=
  { goals := [⟨10, false, "GoalA"⟩, ⟨20, false, "GoalB"⟩]
    active_row_index := some 0
    entry_rows := [(10, false), (20, false)]
    e_entry_text_edit := some (0, "GoalA")
    e_entry_id_edit := none }

/-- C3 counterexample: with a text-edit session already open on row 0,
attempting to begin a second text edit on row 1 does not fail with any
error at all — the call returns the state unchanged (the session on row 0
still open) and reports nothing: the conflict is silently ignored rather
than raised as `ConflictError`. -/
theorem C3_second_edit_not_conflict_error :
    AIEditor.start_entry_text_edit c3_editor 1 = .ok (c3_editor, .ignored)
    ∧ c3_editor.e_entry_text_edit = some (0, "GoalA") := ⟨rfl, rfl⟩

/-- C3 (amended): at most one inline edit session is ever open — whenever a
text or ID edit is already open, `_start_entry_text_edit` is a silent no-op
(state unchanged, nothing reported, no error raised), and any call that
returns normally preserves the at-most-one-open-session invariant. -/
theorem C3_at_most_one_edit_session (s : AIEditorState) (r : Nat)
    (h : s.e_entry_text_edit ≠ none ∨ s.e_entry_id_edit ≠ none) :
    AIEditor.start_entry_text_edit s r = .ok (s, .ignored)
    ∧ ∀ t : AIEditorState, ∀ k : Nat, ∀ t' : AIEditorState,
        ∀ res : StartEditResult,
        AIEditor.start_entry_text_edit t k = .ok (t', res) →
        (t.e_entry_text_edit = none ∨ t.e_entry_id_edit = none) →
        (t'.e_entry_text_edit = none ∨ t'.e_entry_id_edit = none) := by
  constructor
  · have hb : (s.e_entry_text_edit.isNone && s.e_entry_id_edit.isNone) = false := by
      rcases h with h | h <;>
        cases hx : s.e_entry_text_edit <;> cases hy : s.e_entry_id_edit <;> simp_all
    simp [AIEditor.start_entry_text_edit, hb]
  · intro t k t' res heq hsafe
    unfold AIEditor.start_entry_text_edit at heq
    by_cases hb : (t.e_entry_text_edit.isNone && t.e_entry_id_edit.isNone) = true
    · rw [if_pos hb] at heq
      have hid : t.e_entry_id_edit = none := by
        simp only [Bool.and_eq_true, Option.isNone_iff_eq_none] at hb
        exact hb.2
      split at heq
      · exact absurd heq (by simp)
      · split at heq
        · simp only [Except.ok.injEq, Prod.mk.injEq] at heq
          exact heq.1 ▸ hsafe
        · simp only [Except.ok.injEq, Prod.mk.injEq] at heq
          right
          rw [← heq.1]
          exact hid
    · rw [if_neg hb] at heq
      simp only [Except.ok.injEq, Prod.mk.injEq] at heq
      exact heq.1 ▸ hsafe

theorem C3_at_most_one_edit_session_witness :
    AIEditor.start_entry_text_edit c3_editor 1 = .ok (c3_editor, .ignored)
    ∧ ∀ t : AIEditorState, ∀ k : Nat, ∀ t' : AIEditorState,
        ∀ res : StartEditResult,
        AIEditor.start_entry_text_edit t k = .ok (t', res) →
        (t.e_entry_text_edit = none ∨ t.e_entry_id_edit = none) →
        (t'.e_entry_text_edit = none ∨ t'.e_entry_id_edit = none) :=
  C3_at_most_one_edit_session c3_editor 1 (Or.inl (by decide))

/-- C9: `AIEditor.delete_entry(row_index)` removes a goal only when
`row_index` equals the active row index: a `None` or non-active
`row_index` leaves the state unchanged and rings the bell, the outcome
never depends on the `must_be_selected` flag (the guard parses as
`(must_be_selected and active is None) or (row_index != active)`), and
when `row_index` equals the active row the row's goal is removed, the
selection cleared, inline edits cancelled, and the rows refreshed. -/
theorem C9_delete_only_active_row (s : AIEditorState) (r : Nat)
    (must must' iu : Bool) (h : some r ≠ s.active_row_index) :
    AIEditor.delete_entry s none must iu = .ok (s, .bell)
    ∧ AIEditor.delete_entry s (some r) must iu = .ok (s, .bell)
    ∧ (∀ t : AIEditorState, ∀ rr : Option Nat,
        AIEditor.delete_entry t rr must iu = AIEditor.delete_entry t rr must' iu)
    ∧ (∀ t : AIEditorState, ∀ r' : Nat, ∀ gid : Int, ∀ gt : Bool,
        ∀ g : LuaGoalScript,
        t.active_row_index = some r' →
        t.entry_rows.get? r' = some (gid, gt) →
        AIEditor.luabnd_get_goal t.goals gid gt = .ok g →
        AIEditor.delete_entry t (some r') must iu
          = .ok ({ goals := t.goals.erase g, active_row_index := none,
                   entry_rows := AIEditor.get_goal_dict_keys (t.goals.erase g),
                   e_entry_text_edit := none, e_entry_id_edit := none },
              .nothing)) := by
  refine ⟨rfl, ?_, ?_, ?_⟩
  · simp [AIEditor.delete_entry, h]
  · intro t rr
    cases rr with
    | none => rfl
    | some rr =>
      by_cases hrr : some rr = t.active_row_index
      · simp [AIEditor.delete_entry, ← hrr]
      · simp [AIEditor.delete_entry, hrr]
  · intro t r' gid gt g ha hr hg
    rw [List.get?_eq_getElem?] at hr
    simp [AIEditor.delete_entry, ha, AIEditor.cancel_entry_edits,
      AIEditor.get_goal, hr, hg, AIEditor.select_entry_row_index,
      AIEditor.refresh_entries]

theorem C9_delete_only_active_row_witness :
    AIEditor.delete_entry c3_editor none false false = .ok (c3_editor, .bell)
    ∧ AIEditor.delete_entry c3_editor (some 1) false false = .ok (c3_editor, .bell)
    ∧ (∀ t : AIEditorState, ∀ rr : Option Nat,
        AIEditor.delete_entry t rr false false = AIEditor.delete_entry t rr true false)
    ∧ (∀ t : AIEditorState, ∀ r' : Nat, ∀ gid : Int, ∀ gt : Bool,
        ∀ g : LuaGoalScript,
        t.active_row_index = some r' →
        t.entry_rows.get? r' = some (gid, gt) →
        AIEditor.luabnd_get_goal t.goals gid gt = .ok g →
        AIEditor.delete_entry t (some r') false false
          = .ok ({ goals := t.goals.erase g, active_row_index := none,
                   entry_rows := AIEditor.get_goal_dict_keys (t.goals.erase g),
                   e_entry_text_edit := none, e_entry_id_edit := none },
              .nothing)) :=
  C9_delete_only_active_row c3_editor 1 false true false (by decide)

theorem dict_pop_of_not_mem {α : Type} (rows : List (Int × α)) (k : Int)
    (h : ¬ k ∈ rows.map Prod.fst) :
    dict_pop rows k = .error .keyError := by
  induction rows with
  | nil => rfl
  | cons c rest ih =>
    simp only [List.map_cons, List.mem_cons, not_or] at h
    have h1 : (c.1 == k) = false := beq_eq_false_iff_ne.mpr (Ne.symm h.1)
    unfold dict_pop
    simp [h1, ih h.2]

/-- C6 counterexample: concrete failing mutating operations that raise no
typed error — `delete_entry` with no row leaves everything unchanged and
only rings the bell (and returns `None`, despite its docstring promising
`False` on failure), and an ID change colliding with an existing key leaves
everything unchanged, shows a dialog, and returns `False`.  Neither failure
is reported to the caller as a typed error. -/
theorem C6_failure_without_typed_error :
    AIEditor.delete_entry c3_editor none false false = .ok (c3_editor, .bell)
    ∧ AIEditor.change_entry_id c3_editor 0 20 = .ok (c3_editor, false, .dialog) :=
  ⟨rfl, rfl⟩

/-- C6 (amended): every failing mutating operation of the entry-editing
code — delete, rename/ID change, insert, and text edit — leaves the data
state unchanged (error atomicity holds), but failures are reported through
bell or dialog feedback and falsy return values — or, for invalid
arguments, plain Python exceptions raised before any mutation — rather
than through the spec's typed error hierarchy. -/
theorem C6_failures_leave_state_unchanged :
    (∀ s : AIEditorState, ∀ must iu : Bool,
      AIEditor.delete_entry s none must iu = .ok (s, .bell))
    ∧ (∀ s : AIEditorState, ∀ r : Nat, ∀ must iu : Bool,
        some r ≠ s.active_row_index →
        AIEditor.delete_entry s (some r) must iu = .ok (s, .bell))
    ∧ (∀ s : AIEditorState, ∀ r : Nat, ∀ new_id : Int, ∀ g : LuaGoalScript,
        AIEditor.get_goal s r = .ok g → (g.goal_id == new_id) = false →
        (new_id, g.goal_type) ∈ AIEditor.get_goal_dict_keys s.goals →
        AIEditor.change_entry_id s r new_id = .ok (s, false, .dialog))
    ∧ (∀ lua_name_ok : String → Bool, ∀ iu : Bool, ∀ s : AIEditorState,
        ∀ entry_id : Int, ∀ text : String, ∀ gt : Bool,
        ∀ at_index : Option Nat, ∀ ng : LuaGoalScript, entry_id < 0 →
        AIEditor.add_entry lua_name_ok iu s entry_id text gt at_index ng
          = .ok (s, some false, .dialog))
    ∧ (∀ lua_name_ok : String → Bool, ∀ iu : Bool, ∀ s : AIEditorState,
        ∀ entry_id : Int, ∀ text : String, ∀ gt : Bool,
        ∀ at_index : Option Nat, ∀ ng : LuaGoalScript, ¬ entry_id < 0 →
        (entry_id, gt) ∈ AIEditor.get_goal_dict_keys s.goals →
        AIEditor.add_entry lua_name_ok iu s entry_id text gt at_index ng
          = .ok (s, some false, .dialog))
    ∧ (∀ lua_name_ok : String → Bool, ∀ s : AIEditorState, ∀ entry_id : Int,
        ∀ text : String, ∀ gt : Bool, ∀ g : LuaGoalScript,
        AIEditor.luabnd_get_goal s.goals entry_id gt = .ok g →
        lua_name_ok text = false →
        AIEditor.set_entry_text lua_name_ok s entry_id text gt
          = .ok (s, false, .dialog))
    ∧ (∀ s : BaseEditorState, ∀ entry_id : Int, ∀ txt : String,
        ((get_selected_category_entries s).length : Int) ≤ entry_id →
        update_entry_text s entry_id txt = .error .indexError)
    ∧ (∀ row : QEntryRowState, ∀ i : Int,
        QEntryRow.update_entry row (some i) none "" = .error .valueError)
    ∧ (∀ rows : List (Int × String), ∀ old_key new_key : Int,
        ¬ old_key ∈ rows.map Prod.fst →
        ParamsEditor.set_entry_id rows old_key new_key = .error .keyError) := by
  refine ⟨fun s must iu => rfl, ?_, ?_, ?_, ?_, ?_, ?_, ?_, ?_⟩
  · intro s r must iu h
    simp [AIEditor.delete_entry, h]
  · intro s r new_id g hget hne hcont
    simp [AIEditor.change_entry_id, hget, hne, hcont]
  · intro lua_name_ok iu s entry_id text gt at_index ng h
    simp [AIEditor.add_entry, h]
  · intro lua_name_ok iu s entry_id text gt at_index ng h hcont
    simp [AIEditor.add_entry, h, hcont]
  · intro lua_name_ok s entry_id text gt g hget hlua
    simp [AIEditor.set_entry_text, hget, hlua]
  · intro s entry_id txt h
    unfold update_entry_text py_list_setitem
    rw [if_neg (by omega), if_neg (by omega)]
  · intro row i
    rfl
  · intro rows old_key new_key h
    unfold ParamsEditor.set_entry_id
    rw [dict_pop_of_not_mem rows old_key h]

theorem C6_failures_leave_state_unchanged_witness :
    AIEditor.delete_entry c3_editor none true false = .ok (c3_editor, .bell)
    ∧ AIEditor.delete_entry c3_editor (some 1) true false = .ok (c3_editor, .bell)
    ∧ AIEditor.change_entry_id c3_editor 0 20 = .ok (c3_editor, false, .dialog)
    ∧ AIEditor.add_entry (fun _ => true) false c3_editor (-1) "G" false none
        ⟨0, false, ""⟩ = .ok (c3_editor, some false, .dialog)
    ∧ AIEditor.add_entry (fun _ => true) false c3_editor 10 "G" false none
        ⟨0, false, ""⟩ = .ok (c3_editor, some false, .dialog)
    ∧ AIEditor.set_entry_text (fun _ => false) c3_editor 10 "bad name" false
        = .ok (c3_editor, false, .dialog)
    ∧ update_entry_text c10_editor 3 "X" = .error .indexError
    ∧ QEntryRow.update_entry c4_row (some 7) none "" = .error .valueError
    ∧ ParamsEditor.set_entry_id [((5 : Int), "Foo")] 7 9 = .error .keyError := by
  obtain ⟨h1, h2, h3, h4, h5, h6, h7, h8, h9⟩ := C6_failures_leave_state_unchanged
  exact ⟨h1 c3_editor true false, h2 c3_editor 1 true false (by decide),
    h3 c3_editor 0 20 ⟨10, false, "GoalA"⟩ rfl rfl (by decide),
    h4 (fun _ => true) false c3_editor (-1) "G" false none ⟨0, false, ""⟩ (by decide),
    h5 (fun _ => true) false c3_editor 10 "G" false none ⟨0, false, ""⟩
      (by decide) (by decide),
    h6 (fun _ => false) c3_editor 10 "bad name" false ⟨10, false, "GoalA"⟩ rfl rfl,
    h7 c10_editor 3 "X" (by decide),
    h8 c4_row 7,
    h9 [((5 : Int), "Foo")] 7 9 (by decide)⟩

/-! ## Support lemmas for the rename round-trip law -/

theorem list_set_of_get?_eq {α : Type} (l : List α) (n : Nat) (a : α)
    (h : l.get? n = some a) : l.set n a = l := by
  induction l generalizing n with
  | nil => simp at h
  | cons x t ih =>
    cases n with
    | zero =>
      simp only [List.get?_cons_zero, Option.some.injEq] at h
      simp [h]
    | succ n =>
      simp only [List.get?_cons_succ] at h
      simp [List.set, ih n h]

theorem mergeSort_eq_of_perm {l₁ l₂ : List Int} (h : l₁.Perm l₂) :
    l₁.mergeSort = l₂.mergeSort :=
  List.eq_of_perm_of_sorted
    ((List.mergeSort_perm l₁ _).trans (h.trans (List.mergeSort_perm l₂ _).symm))
    (List.sorted_mergeSort' l₁) (List.sorted_mergeSort' l₂)

theorem sorted_keys_eq_of_perm {α : Type} {l₁ l₂ : List (Int × α)}
    (h : l₁.Perm l₂) : sorted_keys l₁ = sorted_keys l₂ :=
  mergeSort_eq_of_perm (h.map Prod.fst)

theorem dict_pop_ok_of_mem {α : Type} (rows : List (Int × α)) (k : Int)
    (h : k ∈ rows.map Prod.fst) :
    ∃ v rows1, dict_pop rows k = .ok (v, rows1) := by
  induction rows with
  | nil => simp at h
  | cons c rest ih =>
    by_cases hc : c.1 = k
    · exact ⟨c.2, rest, by simp [dict_pop, hc]⟩
    · simp only [List.map_cons, List.mem_cons] at h
      have hmem : k ∈ rest.map Prod.fst := by
        rcases h with h' | h'
        · exact absurd h'.symm hc
        · exact h'
      obtain ⟨v, rows1, hp⟩ := ih hmem
      exact ⟨v, c :: rows1, by simp [dict_pop, hc, hp]⟩

theorem dict_pop_perm {α : Type} (rows : List (Int × α)) (k : Int)
    (v : α) (rows1 : List (Int × α)) (h : dict_pop rows k = .ok (v, rows1)) :
    rows.Perm ((k, v) :: rows1) := by
  induction rows generalizing rows1 with
  | nil => simp [dict_pop] at h
  | cons c rest ih =>
    unfold dict_pop at h
    by_cases hc : (c.1 == k) = true
    · rw [if_pos hc] at h
      simp only [Except.ok.injEq, Prod.mk.injEq] at h
      obtain ⟨rfl, rfl⟩ := h
      have hck : c.1 = k := eq_of_beq hc
      rw [← hck]
    · rw [if_neg hc] at h
      rcases hp : dict_pop rest k with e | p
      · rw [hp] at h
        simp at h
      · obtain ⟨v0, rest0⟩ := p
        rw [hp] at h
        simp only [Except.ok.injEq, Prod.mk.injEq] at h
        obtain ⟨rfl, rfl⟩ := h
        exact ((ih rest0 hp).cons c).trans (List.Perm.swap _ _ _)

theorem dict_pop_get_self {α : Type} (rows : List (Int × α)) (k : Int)
    (v : α) (rows1 : List (Int × α)) (h : dict_pop rows k = .ok (v, rows1)) :
    dict_get rows k = some v := by
  induction rows generalizing rows1 with
  | nil => simp [dict_pop] at h
  | cons c rest ih =>
    unfold dict_pop at h
    by_cases hc : (c.1 == k) = true
    · rw [if_pos hc] at h
      simp only [Except.ok.injEq, Prod.mk.injEq] at h
      simp [dict_get, List.find?_cons_of_pos, hc, h.1]
    · rw [if_neg hc] at h
      rcases hp : dict_pop rest k with e | p
      · rw [hp] at h
        simp at h
      · obtain ⟨v0, rest0⟩ := p
        rw [hp] at h
        simp only [Except.ok.injEq, Prod.mk.injEq] at h
        have hr : dict_pop rest k = .ok (v, rest0) := by rw [hp, h.1]
        have := ih rest0 hr
        simpa [dict_get, List.find?_cons_of_neg, hc] using this

theorem dict_pop_append_last {α : Type} (l : List (Int × α)) (k : Int) (v : α)
    (h : ¬ k ∈ l.map Prod.fst) : dict_pop (l ++ [(k, v)]) k = .ok (v, l) := by
  induction l with
  | nil => simp [dict_pop]
  | cons c rest ih =>
    simp only [List.map_cons, List.mem_cons, not_or] at h
    have h1 : (c.1 == k) = false := beq_eq_false_iff_ne.mpr fun e => h.1 e.symm
    simp only [List.cons_append]
    unfold dict_pop
    simp [h1, ih h.2]

theorem dict_set_of_not_mem {α : Type} (rows : List (Int × α)) (k : Int) (v : α)
    (h : ¬ k ∈ rows.map Prod.fst) : dict_set rows k v = rows ++ [(k, v)] := by
  induction rows with
  | nil => rfl
  | cons c rest ih =>
    simp only [List.map_cons, List.mem_cons, not_or] at h
    have h1 : (c.1 == k) = false := beq_eq_false_iff_ne.mpr fun e => h.1 e.symm
    unfold dict_set
    simp [h1, ih h.2]

theorem dict_get_eq_of_perm {α : Type} {l₁ l₂ : List (Int × α)}
    (h : l₁.Perm l₂) (hnd : (l₁.map Prod.fst).Nodup) (k : Int) :
    dict_get l₁ k = dict_get l₂ k := by
  revert hnd
  induction h with
  | nil => intro _; rfl
  | cons x h ih =>
    intro hnd
    simp only [List.map_cons, List.nodup_cons] at hnd
    by_cases hx : (x.1 == k) = true
    · simp [dict_get, List.find?_cons_of_pos, hx]
    · have := ih hnd.2
      unfold dict_get at this ⊢
      rw [@List.find?_cons_of_neg _ (fun c => c.1 == k) x _ hx,
        @List.find?_cons_of_neg _ (fun c => c.1 == k) x _ hx]
      exact this
  | swap x y l =>
    intro hnd
    simp only [List.map_cons, List.nodup_cons, List.mem_cons, not_or] at hnd
    have hxy : y.1 ≠ x.1 := hnd.1.1
    by_cases hy : (y.1 == k) = true <;> by_cases hx : (x.1 == k) = true
    · exact absurd ((eq_of_beq hy).trans (eq_of_beq hx).symm) hxy
    · simp [dict_get, List.find?_cons_of_pos, List.find?_cons_of_neg, hx, hy]
    · simp [dict_get, List.find?_cons_of_pos, List.find?_cons_of_neg, hx, hy]
    · simp [dict_get, List.find?_cons_of_neg, hx, hy]
  | trans h1 h2 ih1 ih2 =>
    intro hnd
    exact (ih1 hnd).trans (ih2 ((h1.map Prod.fst).nodup hnd))

theorem params_rename_roundtrip {α : Type} (rows : List (Int × α))
    (old_key new_key : Int) (hnd : (rows.map Prod.fst).Nodup)
    (hmem : old_key ∈ rows.map Prod.fst) :
    (ParamsEditor.rename_total (ParamsEditor.rename_total rows old_key new_key)
        new_key old_key).Perm rows := by
  by_cases hnew : new_key ∈ rows.map Prod.fst
  · have e1 : ParamsEditor.rename_total rows old_key new_key = rows := by
      unfold ParamsEditor.rename_total ParamsEditor.change_entry_id
      simp [hnew]
    have e2 : ParamsEditor.rename_total rows new_key old_key = rows := by
      unfold ParamsEditor.rename_total ParamsEditor.change_entry_id
      simp [hmem]
    rw [e1, e2]
  · obtain ⟨v, rows1, hpop⟩ := dict_pop_ok_of_mem rows old_key hmem
    have hperm : rows.Perm ((old_key, v) :: rows1) :=
      dict_pop_perm rows old_key v rows1 hpop
    have hkp : (rows.map Prod.fst).Perm (old_key :: rows1.map Prod.fst) := by
      simpa using hperm.map Prod.fst
    have hnd1 : (old_key :: rows1.map Prod.fst).Nodup := hkp.nodup hnd
    have hold1 : ¬ old_key ∈ rows1.map Prod.fst := by
      simp only [List.nodup_cons] at hnd1
      exact hnd1.1
    have hnew1 : ¬ new_key ∈ rows1.map Prod.fst := fun hm =>
      hnew (hkp.symm.subset (List.mem_cons_of_mem _ hm))
    have hne : old_key ≠ new_key := fun e => hnew (e ▸ hmem)
    have e1 : ParamsEditor.rename_total rows old_key new_key
        = rows1 ++ [(new_key, v)] := by
      unfold ParamsEditor.rename_total ParamsEditor.change_entry_id
        ParamsEditor.set_entry_id
      simp [hnew, hpop, dict_set_of_not_mem rows1 new_key v hnew1]
    have hmem2 : ¬ old_key ∈ (rows1 ++ [(new_key, v)]).map Prod.fst := by
      simp only [List.map_append, List.map_cons, List.map_nil, List.mem_append,
        List.mem_singleton, not_or]
      exact ⟨hold1, hne⟩
    have e2 : ParamsEditor.rename_total (rows1 ++ [(new_key, v)]) new_key old_key
        = rows1 ++ [(old_key, v)] := by
      have hc2 : ((rows1 ++ [(new_key, v)]).map Prod.fst).contains old_key = false := by
        simpa using hmem2
      unfold ParamsEditor.rename_total ParamsEditor.change_entry_id
        ParamsEditor.set_entry_id
      rw [hc2]
      simp [dict_pop_append_last rows1 new_key v hnew1,
        dict_set_of_not_mem rows1 old_key v hold1]
    rw [e1, e2]
    exact (List.perm_append_singleton _ _).trans hperm.symm

theorem goal_pred_iff (g : LuaGoalScript) (gid : Int) (gt : Bool) :
    ((g.goal_id == gid && g.goal_type == gt) = true) ↔
      AIEditor.goal_key g = (gid, gt) := by
  simp [AIEditor.goal_key, Prod.ext_iff]

theorem luabnd_get_goal_ok (goals : List LuaGoalScript) (gid : Int) (gt : Bool)
    (h : (gid, gt) ∈ AIEditor.get_goal_dict_keys goals) :
    ∃ g, AIEditor.luabnd_get_goal goals gid gt = .ok g
      ∧ g.goal_id = gid ∧ g.goal_type = gt := by
  induction goals with
  | nil => simp [AIEditor.get_goal_dict_keys] at h
  | cons g0 rest ih =>
    by_cases hg : (g0.goal_id == gid && g0.goal_type == gt) = true
    · have hk := (goal_pred_iff g0 gid gt).mp hg
      refine ⟨g0, ?_, ?_, ?_⟩
      · simp [AIEditor.luabnd_get_goal, List.find?_cons_of_pos, hg]
      · exact congrArg Prod.fst hk
      · exact congrArg Prod.snd hk
    · have h' : (gid, gt) ∈ AIEditor.get_goal_dict_keys rest := by
        simp only [AIEditor.get_goal_dict_keys, List.map_cons, List.mem_cons] at h
        rcases h with h | h
        · exact absurd ((goal_pred_iff g0 gid gt).mpr h.symm) hg
        · exact h
      obtain ⟨g, h1, h2, h3⟩ := ih h'
      refine ⟨g, ?_, h2, h3⟩
      unfold AIEditor.luabnd_get_goal at h1 ⊢
      rw [@List.find?_cons_of_neg _ (fun g => g.goal_id == gid && g.goal_type == gt)
        g0 rest hg]
      exact h1

theorem set_first_goal_id_cons_pos (g0 : LuaGoalScript)
    (rest : List LuaGoalScript) (gid x : Int) (gt : Bool)
    (h : (g0.goal_id == gid && g0.goal_type == gt) = true) :
    AIEditor.set_first_goal_id (g0 :: rest) gid gt x
      = { g0 with goal_id := x } :: rest := by
  simp [AIEditor.set_first_goal_id, h]

theorem set_first_goal_id_cons_neg (g0 : LuaGoalScript)
    (rest : List LuaGoalScript) (gid x : Int) (gt : Bool)
    (h : (g0.goal_id == gid && g0.goal_type == gt) = false) :
    AIEditor.set_first_goal_id (g0 :: rest) gid gt x
      = g0 :: AIEditor.set_first_goal_id rest gid gt x := by
  simp [AIEditor.set_first_goal_id, h]

theorem luabnd_get_goal_cons_pos (g0 : LuaGoalScript)
    (rest : List LuaGoalScript) (gid : Int) (gt : Bool)
    (h : (g0.goal_id == gid && g0.goal_type == gt) = true) :
    AIEditor.luabnd_get_goal (g0 :: rest) gid gt = .ok g0 := by
  simp [AIEditor.luabnd_get_goal, List.find?_cons_of_pos, h]

theorem luabnd_get_goal_cons_neg (g0 : LuaGoalScript)
    (rest : List LuaGoalScript) (gid : Int) (gt : Bool)
    (h : (g0.goal_id == gid && g0.goal_type == gt) = false) :
    AIEditor.luabnd_get_goal (g0 :: rest) gid gt
      = AIEditor.luabnd_get_goal rest gid gt := by
  unfold AIEditor.luabnd_get_goal
  rw [@List.find?_cons_of_neg _
    (fun g => g.goal_id == gid && g.goal_type == gt) g0 rest (by simp [h])]

theorem set_first_goal_id_spec (goals : List LuaGoalScript) (gid x : Int)
    (gt : Bool) (hmem : (gid, gt) ∈ AIEditor.get_goal_dict_keys goals)
    (hnd : (AIEditor.get_goal_dict_keys goals).Nodup)
    (hnew : ¬ (x, gt) ∈ AIEditor.get_goal_dict_keys goals) (hne : gid ≠ x) :
    (∀ g, AIEditor.luabnd_get_goal goals gid gt = .ok g →
      AIEditor.luabnd_get_goal (AIEditor.set_first_goal_id goals gid gt x) x gt
        = .ok { g with goal_id := x })
    ∧ ¬ (gid, gt) ∈
        AIEditor.get_goal_dict_keys (AIEditor.set_first_goal_id goals gid gt x)
    ∧ AIEditor.set_first_goal_id (AIEditor.set_first_goal_id goals gid gt x)
        x gt gid = goals := by
  induction goals with
  | nil => simp [AIEditor.get_goal_dict_keys] at hmem
  | cons g0 rest ih =>
    simp only [AIEditor.get_goal_dict_keys, List.map_cons, List.mem_cons,
      List.nodup_cons, not_or] at hmem hnd hnew
    by_cases hg : (g0.goal_id == gid && g0.goal_type == gt) = true
    · have hk := (goal_pred_iff g0 gid gt).mp hg
      have hid0 : g0.goal_id = gid := congrArg Prod.fst hk
      have hgt0 : g0.goal_type = gt := congrArg Prod.snd hk
      have hpred2 : (({ g0 with goal_id := x } : LuaGoalScript).goal_id == x
          && ({ g0 with goal_id := x } : LuaGoalScript).goal_type == gt) = true := by
        simp [hgt0]
      rw [set_first_goal_id_cons_pos g0 rest gid x gt hg]
      refine ⟨?_, ?_, ?_⟩
      · intro g hget
        rw [luabnd_get_goal_cons_pos g0 rest gid gt hg] at hget
        have hg0 : g0 = g := Except.ok.inj hget
        subst hg0
        exact luabnd_get_goal_cons_pos _ rest x gt hpred2
      · simp only [AIEditor.get_goal_dict_keys, List.map_cons, List.mem_cons,
          not_or, AIEditor.goal_key]
        constructor
        · intro hcontra
          exact hne (congrArg Prod.fst hcontra)
        · exact hk ▸ hnd.1
      · rw [set_first_goal_id_cons_pos _ rest x gid gt hpred2]
        have hrec : { { g0 with goal_id := x } with goal_id := gid } = g0 := by
          obtain ⟨a, b, c⟩ := g0
          simp only at hid0
          subst hid0
          rfl
        rw [hrec]
    · have hk0 : AIEditor.goal_key g0 ≠ (gid, gt) := fun e =>
        hg ((goal_pred_iff g0 gid gt).mpr e)
      have hmem' : (gid, gt) ∈ AIEditor.get_goal_dict_keys rest := by
        rcases hmem with h | h
        · exact absurd h.symm hk0
        · exact h
      have hx0 : AIEditor.goal_key g0 ≠ (x, gt) := fun e => hnew.1 e.symm
      have hgx : (g0.goal_id == x && g0.goal_type == gt) = false := by
        rcases hb : (g0.goal_id == x && g0.goal_type == gt) with _ | _
        · rfl
        · exact absurd ((goal_pred_iff g0 x gt).mp hb) hx0
      have hgF : (g0.goal_id == gid && g0.goal_type == gt) = false := by
        rcases hb : (g0.goal_id == gid && g0.goal_type == gt) with _ | _
        · rfl
        · exact absurd hb hg
      obtain ⟨ih1, ih2, ih3⟩ := ih hmem' hnd.2 hnew.2
      rw [set_first_goal_id_cons_neg g0 rest gid x gt hgF]
      refine ⟨?_, ?_, ?_⟩
      · intro g hget
        rw [luabnd_get_goal_cons_neg g0 rest gid gt hgF] at hget
        rw [luabnd_get_goal_cons_neg g0 _ x gt hgx]
        exact ih1 g hget
      · simp only [AIEditor.get_goal_dict_keys, List.map_cons, List.mem_cons,
          not_or]
        refine ⟨fun e => hk0 e.symm, ?_⟩
        simpa [AIEditor.get_goal_dict_keys] using ih2
      · rw [set_first_goal_id_cons_neg g0 _ x gid gt hgx, ih3]

theorem ai_rename_chain_ok (s : AIEditorState) (r : Nat) (new_id old_id : Int)
    (gt : Bool) (hrow : s.entry_rows.get? r = some (old_id, gt))
    (hgmem : (old_id, gt) ∈ AIEditor.get_goal_dict_keys s.goals)
    (hgnd : (AIEditor.get_goal_dict_keys s.goals).Nodup) :
    AIEditor.rename_chain s r new_id old_id = .ok s := by
  obtain ⟨g, hg1, hg2, hg3⟩ := luabnd_get_goal_ok s.goals old_id gt hgmem
  have hrow' := hrow
  rw [List.get?_eq_getElem?] at hrow'
  have hget : AIEditor.get_goal s r = .ok g := by
    simp [AIEditor.get_goal, hrow', hg1]
  have hgetold : (g.goal_id == old_id) = true := beq_iff_eq.mpr hg2
  by_cases hid : (g.goal_id == new_id) = true
  · have e1 : AIEditor.change_entry_id s r new_id = .ok (s, false, .nothing) := by
      simp [AIEditor.change_entry_id, hget, hid]
    have e2 : AIEditor.change_entry_id s r old_id = .ok (s, false, .nothing) := by
      simp [AIEditor.change_entry_id, hget, hgetold]
    simp [AIEditor.rename_chain, e1, e2]
  · by_cases hdup : (new_id, g.goal_type) ∈ AIEditor.get_goal_dict_keys s.goals
    · have e1 : AIEditor.change_entry_id s r new_id = .ok (s, false, .dialog) := by
        simp [AIEditor.change_entry_id, hget, hid, hdup]
      have e2 : AIEditor.change_entry_id s r old_id = .ok (s, false, .nothing) := by
        simp [AIEditor.change_entry_id, hget, hgetold]
      simp [AIEditor.rename_chain, e1, e2]
    · have hne : old_id ≠ new_id := fun e => hid (by rw [← e]; exact hgetold)
      have hdup' : ¬ (new_id, gt) ∈ AIEditor.get_goal_dict_keys s.goals := by
        rw [← hg3]
        exact hdup
      obtain ⟨ih1, ih2, ih3⟩ :=
        set_first_goal_id_spec s.goals old_id new_id gt hgmem hgnd hdup' hne
      have hlen : r < s.entry_rows.length := by
        rcases List.get?_eq_some.mp hrow with ⟨hl, -⟩
        exact hl
      have e1 : AIEditor.change_entry_id s r new_id
          = .ok ({ s with
              goals := AIEditor.set_first_goal_id s.goals old_id gt new_id,
              entry_rows := s.entry_rows.set r (new_id, gt) }, true, .nothing) := by
        simp [AIEditor.change_entry_id, hget, hid, hdup, hg2, hg3, hne, hdup']
      have hrow1 : (s.entry_rows.set r (new_id, gt))[r]? = some (new_id, gt) :=
        List.getElem?_set_self hlen
      have hget1 : AIEditor.get_goal
          { s with
            goals := AIEditor.set_first_goal_id s.goals old_id gt new_id,
            entry_rows := s.entry_rows.set r (new_id, gt) } r
          = .ok { g with goal_id := new_id } := by
        simp [AIEditor.get_goal, hrow1, ih1 g hg1]
      have hpred2 : (({ g with goal_id := new_id } : LuaGoalScript).goal_id
          == old_id) = false := by
        simp only
        exact beq_eq_false_iff_ne.mpr (Ne.symm hne)
      have hdup2 : ¬ (old_id, gt) ∈ AIEditor.get_goal_dict_keys
          (AIEditor.set_first_goal_id s.goals old_id gt new_id) := ih2
      have hsetrows : (s.entry_rows.set r (new_id, gt)).set r (old_id, gt)
          = s.entry_rows := by
        rw [List.set_set]
        exact list_set_of_get?_eq s.entry_rows r (old_id, gt) hrow
      have e2 : AIEditor.change_entry_id
          { s with
            goals := AIEditor.set_first_goal_id s.goals old_id gt new_id,
            entry_rows := s.entry_rows.set r (new_id, gt) } r old_id
          = .ok (s, true, .nothing) := by
        simp only [AIEditor.change_entry_id, hget1, hpred2, Bool.false_eq_true,
          if_false, hg3]
        rw [if_neg (by simpa using hdup2)]
        simp only [ih3, hsetrows]
      simp [AIEditor.rename_chain, e1, e2]

/-- C5: the rename round-trip law.  For a dict-backed param store containing
`old_key` (unique keys), renaming `old_key` to `new_key` and then back —
with the rename guarded by the spec's `DuplicateKeyError` check and the
store mutation performed by `ParamsEditor._set_entry_id` — restores the
store's contents (as a permutation of key/record pairs), every key lookup,
and the canonical sorted-key order; and for the AI editor, applying
`change_entry_id` on the same row with `new_id` and then back with `old_id`
restores the editor state exactly (same goal list, same displayed rows). -/
theorem C5_rename_roundtrip {α : Type} (rows : List (Int × α))
    (old_key new_key : Int) (s : AIEditorState) (r : Nat)
    (old_id new_id : Int) (gt : Bool)
    (hnd : (rows.map Prod.fst).Nodup) (hmem : old_key ∈ rows.map Prod.fst)
    (hrow : s.entry_rows.get? r = some (old_id, gt))
    (hgmem : (old_id, gt) ∈ AIEditor.get_goal_dict_keys s.goals)
    (hgnd : (AIEditor.get_goal_dict_keys s.goals).Nodup) :
    (ParamsEditor.rename_total (ParamsEditor.rename_total rows old_key new_key)
        new_key old_key).Perm rows
    ∧ (∀ k : Int, dict_get (ParamsEditor.rename_total
        (ParamsEditor.rename_total rows old_key new_key) new_key old_key) k
        = dict_get rows k)
    ∧ sorted_keys (ParamsEditor.rename_total
        (ParamsEditor.rename_total rows old_key new_key) new_key old_key)
        = sorted_keys rows
    ∧ AIEditor.rename_chain s r new_id old_id = .ok s := by
  have hperm := params_rename_roundtrip rows old_key new_key hnd hmem
  refine ⟨hperm, ?_, sorted_keys_eq_of_perm hperm,
    ai_rename_chain_ok s r new_id old_id gt hrow hgmem hgnd⟩
  intro k
  have hnd2 : ((ParamsEditor.rename_total (ParamsEditor.rename_total rows
      old_key new_key) new_key old_key).map Prod.fst).Nodup :=
    ((hperm.map Prod.fst).symm).nodup hnd
  exact dict_get_eq_of_perm hperm hnd2 k

theorem C5_rename_roundtrip_witness :
    (ParamsEditor.rename_total (ParamsEditor.rename_total
        [((1 : Int), "A"), (2, "B")] 1 3) 3 1).Perm [((1 : Int), "A"), (2, "B")]
    ∧ (∀ k : Int, dict_get (ParamsEditor.rename_total (ParamsEditor.rename_total
        [((1 : Int), "A"), (2, "B")] 1 3) 3 1) k
        = dict_get [((1 : Int), "A"), (2, "B")] k)
    ∧ sorted_keys (ParamsEditor.rename_total (ParamsEditor.rename_total
        [((1 : Int), "A"), (2, "B")] 1 3) 3 1)
        = sorted_keys [((1 : Int), "A"), (2, "B")]
    ∧ AIEditor.rename_chain c3_editor 0 99 10 = .ok c3_editor :=
  C5_rename_roundtrip [((1 : Int), "A"), (2, "B")] 1 3 c3_editor 0 10 99 false
    (by decide) (by decide) rfl (by decide) (by decide)
